import Mathlib

/-!
Verification of the SQL query engine of demo-prism-db
(`server/sql_engine.py`, `server/db_connectors.py`).

The Python code is shallowly embedded: pure helpers become Lean functions,
the database driver becomes an explicit oracle (`Db`), and the regular
expressions of `DANGEROUS_PATTERNS` / `STATEMENT_PATTERNS` are embedded as
bespoke matchers reproducing Python `re` semantics for exactly those
patterns on the ASCII fragment (`\w` is `[A-Za-z0-9_]`, `\s` is the ASCII
whitespace set, `IGNORECASE` is ASCII case folding, `.` excludes newline,
`$` matches at end of text or before a final trailing newline).
-/

namespace PrismDb

/-! ### Character classes and Python string helpers -/

/-- The double-quote character `"`. -/
def dquoteChar : Char := Char.ofNat 34

/-- The single-quote character. -/
def squoteChar : Char := Char.ofNat 39

/-- The backquote character. -/
def btickChar : Char := Char.ofNat 96

/-- Python `\w` on the ASCII fragment: letters, digits, underscore. -/
def isWordChar (c : Char) : Bool := c.isAlphanum || c = '_'

/-- Python `\s` / `str.strip` whitespace on the ASCII fragment. -/
def pyIsSpace (c : Char) : Bool :=
  c = ' ' || c = '\t' || c = '\n' || c = '\r' || c = Char.ofNat 11 || c = Char.ofNat 12

/-- Strip leading and trailing whitespace from a character list. -/
def stripList (l : List Char) : List Char :=
  ((l.dropWhile pyIsSpace).reverse.dropWhile pyIsSpace).reverse

/-- Python `str.strip()`: remove leading and trailing whitespace. -/
def pyStrip (s : String) : String := String.mk (stripList s.data)

/-- Python `str.upper()` on the ASCII fragment. -/
def pyUpper (s : String) : String := String.mk (s.data.map Char.toUpper)

/-- Python `needle in hay` for strings: contiguous-substring test. -/
def strContainsAux (needle : List Char) : List Char → Bool
  | [] => needle.isPrefixOf ([] : List Char)
  | c :: rest => needle.isPrefixOf (c :: rest) || strContainsAux needle rest

/-- Python `needle in hay` on strings. -/
def strContains (hay needle : String) : Bool := strContainsAux needle.data hay.data

/-! ### Embedded matchers for the regular expressions used by the engine -/

/-- Case-insensitive literal match (the literal is given in upper case):
if `l` starts with `w` (ASCII case folded), return the remainder. -/
def matchLit : List Char → List Char → Option (List Char)
  | [], l => some l
  | _ :: _, [] => none
  | w :: ws, c :: cs => if c.toUpper = w then matchLit ws cs else none

/-- `\s+` (greedy): requires at least one whitespace character. -/
def spaces1 : List Char → Option (List Char)
  | [] => none
  | c :: rest => if pyIsSpace c then some ((c :: rest).dropWhile pyIsSpace) else none

/-- `\w+` (greedy): requires at least one word character. -/
def word1 : List Char → Option (List Char)
  | [] => none
  | c :: rest => if isWordChar c then some ((c :: rest).dropWhile isWordChar) else none

/-- `\b` after a pattern ending in a word character: the next input
character must not be a word character (or the input must end). -/
def noWordAfter : List Char → Bool
  | [] => true
  | c :: _ => !(isWordChar c)

/-- `\b` between a previous character and the start of the remainder. -/
def atWordBoundary (prev : Option Char) (l : List Char) : Bool :=
  let pw := match prev with | none => false | some c => isWordChar c
  let nw := match l with | [] => false | c :: _ => isWordChar c
  pw != nw

/-- `re.search`: try the positional matcher at every start position,
tracking the previous character for `\b`. -/
def searchFrom (m : List Char → Bool) : Option Char → List Char → Bool
  | prev, [] => atWordBoundary prev [] && m []
  | prev, c :: rest =>
    (atWordBoundary prev (c :: rest) && m (c :: rest)) || searchFrom m (some c) rest

/-- `re.search(pattern, s)` for a matcher anchored by a leading `\b`. -/
def reSearchBy (m : List Char → Bool) (s : String) : Bool := searchFrom m none s.data

/-- `DROP\s+DATABASE\b` at the current position. -/
def matchDropDatabaseAt (l : List Char) : Bool :=
  match matchLit "DROP".data l with
  | none => false
  | some r1 =>
    match spaces1 r1 with
    | none => false
    | some r2 =>
      match matchLit "DATABASE".data r2 with
      | none => false
      | some r3 => noWordAfter r3

/-- `DROP\s+SCHEMA\b` at the current position. -/
def matchDropSchemaAt (l : List Char) : Bool :=
  match matchLit "DROP".data l with
  | none => false
  | some r1 =>
    match spaces1 r1 with
    | none => false
    | some r2 =>
      match matchLit "SCHEMA".data r2 with
      | none => false
      | some r3 => noWordAfter r3

/-- `TRUNCATE\s+TABLE\b` at the current position. -/
def matchTruncateTableAt (l : List Char) : Bool :=
  match matchLit "TRUNCATE".data l with
  | none => false
  | some r1 =>
    match spaces1 r1 with
    | none => false
    | some r2 =>
      match matchLit "TABLE".data r2 with
      | none => false
      | some r3 => noWordAfter r3

/-- `DELETE\s+FROM\s+\w+\s*(?:;|$)` at the current position.  The greedy
runs are forced because `\w`, `\s`, `;` and end-of-text are mutually
exclusive, so no backtracking is needed. -/
def matchDeleteFromAt (l : List Char) : Bool :=
  match matchLit "DELETE".data l with
  | none => false
  | some r1 =>
    match spaces1 r1 with
    | none => false
    | some r2 =>
      match matchLit "FROM".data r2 with
      | none => false
      | some r3 =>
        match spaces1 r3 with
        | none => false
        | some r4 =>
          match word1 r4 with
          | none => false
          | some r5 =>
            let r6 := r5.dropWhile pyIsSpace
            r6.isEmpty || r6.head? = some ';'

/-- `(?!.*WHERE)` fails at this position, i.e. `.*WHERE` matches here:
`WHERE` occurs in the remainder before any newline. -/
def whereAhead : List Char → Bool
  | [] => false
  | c :: rest =>
    (matchLit "WHERE".data (c :: rest)).isSome || (c != '\n' && whereAhead rest)

/-- `.*?(?:;|$)(?!.*WHERE)` at the current position (the lazy `.*?`
explored in order; `$` matches at end of text or just before a trailing
final newline, after which the lookahead can never see a `WHERE`). -/
def updTail : List Char → Bool
  | [] => true
  | c :: rest =>
    (c = ';' && !whereAhead rest) ||
    (c = '\n' && rest.isEmpty) ||
    (c != '\n' && updTail rest)

/-- `UPDATE\s+\w+\s+SET\s+.*?(?:;|$)(?!.*WHERE)` at the current position. -/
def matchUpdateSetAt (l : List Char) : Bool :=
  match matchLit "UPDATE".data l with
  | none => false
  | some r1 =>
    match spaces1 r1 with
    | none => false
    | some r2 =>
      match word1 r2 with
      | none => false
      | some r3 =>
        match spaces1 r3 with
        | none => false
        | some r4 =>
          match matchLit "SET".data r4 with
          | none => false
          | some r5 =>
            match spaces1 r5 with
            | none => false
            | some r6 => updTail r6

/-! ### `SQLQueryEngine.DANGEROUS_PATTERNS` and `is_dangerous_query` -/

/-- The raw pattern texts, exactly as written in the source. -/
def patDropDatabase : String := "\\bDROP\\s+DATABASE\\b"

def patDropSchema : String := "\\bDROP\\s+SCHEMA\\b"

def patTruncateTable : String := "\\bTRUNCATE\\s+TABLE\\b"

def patDeleteFrom : String := "\\bDELETE\\s+FROM\\s+\\w+\\s*(?:;|$)"

def patUpdateSet : String := "\\bUPDATE\\s+\\w+\\s+SET\\s+.*?(?:;|$)(?!.*WHERE)"

def DANGEROUS_PATTERNS : List String :=
  [patDropDatabase, patDropSchema, patTruncateTable, patDeleteFrom, patUpdateSet]

/-- `re.search(pattern, sql, re.IGNORECASE)` for the five dangerous
patterns (dispatch on the pattern text). -/
def reSearch (pattern : String) (s : String) : Bool :=
  if pattern = patDropDatabase then reSearchBy matchDropDatabaseAt s
  else if pattern = patDropSchema then reSearchBy matchDropSchemaAt s
  else if pattern = patTruncateTable then reSearchBy matchTruncateTableAt s
  else if pattern = patDeleteFrom then reSearchBy matchDeleteFromAt s
  else if pattern = patUpdateSet then reSearchBy matchUpdateSetAt s
  else false

def warnDropDb : String := "This query will DROP an entire database!"

def warnTruncate : String := "This query will TRUNCATE a table (delete all rows)!"

def warnDelete : String := "This DELETE query has no WHERE clause - it will delete ALL rows!"

def warnUpdate : String := "This UPDATE query has no WHERE clause - it will update ALL rows!"

/-- The warning appended by `is_dangerous_query` for a matched pattern:
the branch conditions test substrings of the raw pattern text. -/
def warningFor (pattern : String) : List String :=
  if strContains pattern "DROP DATABASE" then [warnDropDb]
  else if strContains pattern "TRUNCATE" then [warnTruncate]
  else if strContains pattern "DELETE FROM" then [warnDelete]
  else if strContains pattern "UPDATE" then [warnUpdate]
  else []

/-- `SQLQueryEngine.is_dangerous_query`. -/
def is_dangerous_query (sql : String) : Bool × List String :=
  DANGEROUS_PATTERNS.foldl
    (fun acc pattern =>
      if reSearch pattern sql then (true, acc.2 ++ warningFor pattern) else acc)
    (false, [])

/-! ### `SQLQueryEngine.STATEMENT_PATTERNS` and `detect_statement_type` -/

/-- `^\s*KW\b` applied to a position (anchored match, `re.match`). -/
def kwMatch1 (kw : String) (l : List Char) : Bool :=
  match matchLit kw.data (l.dropWhile pyIsSpace) with
  | none => false
  | some rest => noWordAfter rest

/-- `^\s*KW1\s+KW2\b` applied to a position (anchored match). -/
def kwMatch2 (kw1 kw2 : String) (l : List Char) : Bool :=
  match matchLit kw1.data (l.dropWhile pyIsSpace) with
  | none => false
  | some r1 =>
    match spaces1 r1 with
    | none => false
    | some r2 =>
      match matchLit kw2.data r2 with
      | none => false
      | some r3 => noWordAfter r3

/-- `STATEMENT_PATTERNS` in dict insertion order, each pattern replaced by
its embedded anchored matcher. -/
def STATEMENT_PATTERNS : List (String × (List Char → Bool)) :=
  [("select", kwMatch1 "SELECT"),
   ("insert", kwMatch1 "INSERT"),
   ("update", kwMatch1 "UPDATE"),
   ("delete", kwMatch1 "DELETE"),
   ("create_table", kwMatch2 "CREATE" "TABLE"),
   ("create_database", fun l => kwMatch2 "CREATE" "DATABASE" l || kwMatch2 "CREATE" "SCHEMA" l),
   ("alter_table", kwMatch2 "ALTER" "TABLE"),
   ("drop_table", kwMatch2 "DROP" "TABLE"),
   ("drop_database", fun l => kwMatch2 "DROP" "DATABASE" l || kwMatch2 "DROP" "SCHEMA" l),
   ("truncate", kwMatch1 "TRUNCATE"),
   ("show", kwMatch1 "SHOW"),
   ("describe", fun l => kwMatch1 "DESC" l || kwMatch1 "DESCRIBE" l),
   ("explain", kwMatch1 "EXPLAIN"),
   ("use", kwMatch1 "USE")]

/-- `SQLQueryEngine.detect_statement_type`: first matching pattern wins,
no match yields `"unknown"`. -/
def detect_statement_type (sql : String) : String :=
  let cleaned := pyUpper (pyStrip sql)
  match STATEMENT_PATTERNS.find? (fun p => p.2 cleaned.data) with
  | some p => p.1
  | none => "unknown"

/-! ### `SQLQueryEngine.split_statements` -/

/-- The character loop of `split_statements`: returns the accumulated
statement list and the pending `current_statement` buffer. -/
def splitLoop : List Char → Bool → Option Char → List Char → List String →
    List String × List Char
  | [], _, _, cur, stmts => (stmts, cur)
  | c :: rest, inString, stringChar, cur, stmts =>
    if (c = dquoteChar ∨ c = squoteChar ∨ c = btickChar) ∧ inString = false then
      splitLoop rest true (some c) (cur ++ [c]) stmts
    else if stringChar = some c ∧ inString = true then
      splitLoop rest false none (cur ++ [c]) stmts
    else if c = ';' ∧ inString = false then
      splitLoop rest inString stringChar []
        (if pyStrip (String.mk cur) = "" then stmts else stmts ++ [pyStrip (String.mk cur)])
    else
      splitLoop rest inString stringChar (cur ++ [c]) stmts

/-- `SQLQueryEngine.split_statements`. -/
def split_statements (sql : String) : List String :=
  let sc := splitLoop sql.data false none [] []
  let stmts :=
    if pyStrip (String.mk sc.2) = "" then sc.1 else sc.1 ++ [pyStrip (String.mk sc.2)]
  stmts.filter (fun st => pyStrip st ≠ "")

/-! ### Spec-side splitter

The specification describes the splitter independently of the loop above:
scan the text tracking the current quote kind, cut at unquoted semicolons,
then trim every piece and drop the empty ones. -/

/-- Quote-state transition of the spec: outside quotes, any of the three
quote characters opens a span; inside, only the matching character closes. -/
def specQuoteStep (q : Option Char) (c : Char) : Option Char :=
  match q with
  | none => if c = dquoteChar ∨ c = squoteChar ∨ c = btickChar then some c else none
  | some qc => if c = qc then none else some qc

/-- Raw segments of the text between unquoted semicolons (the semicolons
themselves removed, all other characters kept). -/
def specSegments : List Char → Option Char → List (List Char)
  | [], _ => [[]]
  | c :: rest, q =>
    if q = none ∧ c = ';' then [] :: specSegments rest none
    else
      let segs := specSegments rest (specQuoteStep q c)
      (c :: segs.headD []) :: segs.tail

/-- Spec-side splitter: trimmed, non-empty segments, in order.
(Definition follows the specification text, for comparison with
`split_statements` which is translated from the source.) -/
def specSplit (sql : String) : List String :=
  ((specSegments sql.data none).map (fun l => pyStrip (String.mk l))).filter
    (fun s => s ≠ "")

/-! ### Result model (`schemas.QueryResult`) and the database oracle

`QueryResult` mirrors the pydantic schema: optional fields are `Option`,
`executionTimeMs` is the measured wall-clock duration (an external
quantity, supplied by the oracle for executed statements and literally `0`
on short-circuit paths), and `results` holds sub-results of
multi-statement execution.  Row cells are opaque; they are modelled as
strings. -/

structure Column where
  name : String
  type : String
deriving DecidableEq

abbrev Row := List String

structure ResultFields where
  type : String
  queryType : Option String := none
  columns : Option (List Column) := none
  rows : Option (List Row) := none
  rowCount : Option Nat := none
  totalRows : Option Nat := none
  page : Option Nat := none
  pageSize : Option Nat := none
  totalPages : Option Nat := none
  executionTimeMs : Nat := 0
  affectedRows : Option Int := none
  message : Option String := none
  warnings : List String := []
  isDangerous : Bool := false

inductive QueryResult : Type where
  | mk (fields : ResultFields) (results : Option (List QueryResult)) : QueryResult

def QueryResult.fields : QueryResult → ResultFields
  | .mk f _ => f

def QueryResult.results : QueryResult → Option (List QueryResult)
  | .mk _ r => r

def QueryResult.type (r : QueryResult) : String := r.fields.type

def QueryResult.queryType (r : QueryResult) : Option String := r.fields.queryType

def QueryResult.columns (r : QueryResult) : Option (List Column) := r.fields.columns

def QueryResult.rows (r : QueryResult) : Option (List Row) := r.fields.rows

def QueryResult.rowCount (r : QueryResult) : Option Nat := r.fields.rowCount

def QueryResult.totalRows (r : QueryResult) : Option Nat := r.fields.totalRows

def QueryResult.page (r : QueryResult) : Option Nat := r.fields.page

def QueryResult.pageSize (r : QueryResult) : Option Nat := r.fields.pageSize

def QueryResult.totalPages (r : QueryResult) : Option Nat := r.fields.totalPages

def QueryResult.executionTimeMs (r : QueryResult) : Nat := r.fields.executionTimeMs

def QueryResult.affectedRows (r : QueryResult) : Option Int := r.fields.affectedRows

def QueryResult.message (r : QueryResult) : Option String := r.fields.message

def QueryResult.warnings (r : QueryResult) : List String := r.fields.warnings

def QueryResult.isDangerous (r : QueryResult) : Bool := r.fields.isDangerous

/-- Outcome produced by the MySQL connector for one executed statement:
an exception of the driver (`mysql.connector.Error`), any other
exception, or the cursor state after `execute` (description, fetched
rows, `rowcount`). -/
inductive DbOutcome : Type where
  | err (msg : String)
  | exn (msg : String)
  | ok (columns : List Column) (rows : List Row) (rowcount : Int)

/-- The database oracle: driver outcome per statement text, plus the
wall-clock durations the engine measures (external quantities). -/
structure Db where
  run : String → DbOutcome
  elapsed : String → Nat
  multiElapsed : Nat

/-! ### Python string helpers used in result messages -/

/-- Helper for `str.title()`: upper-case a letter after a non-letter,
lower-case a letter after a letter (ASCII). -/
def pyTitleGo : Bool → List Char → List Char
  | _, [] => []
  | prevAlpha, c :: rest =>
    (if c.isAlpha then (if prevAlpha then c.toLower else c.toUpper) else c) ::
      pyTitleGo c.isAlpha rest

/-- Python `str.title()` on the ASCII fragment. -/
def pyTitle (s : String) : String := String.mk (pyTitleGo false s.data)

/-- Python `str.replace('_', ' ')`. -/
def underscoreToSpace (s : String) : String :=
  String.mk (s.data.map (fun c => if c = '_' then ' ' else c))

/-! ### `SQLQueryEngine._execute_select_query` and `_execute_write_query`

Pagination indices are modelled over `Nat`; the claims (like the spec)
assume `page ≥ 1` and `pageSize ≥ 1`.  (In Python, `page = 0` would make
the slice bound negative and `page_size = 0` would divide by zero.) -/

def execute_select_query (cols : List Column) (allRows : List Row) (sql : String)
    (page pageSize : Nat) (elapsedMs : Nat) (warnings : List String)
    (isDang : Bool) : QueryResult :=
  let totalRows := allRows.length
  let startIdx := (page - 1) * pageSize
  let paginatedRows := (allRows.drop startIdx).take pageSize
  let totalPages := if totalRows > 0 then (totalRows + pageSize - 1) / pageSize else 1
  .mk { type := "select", queryType := some (detect_statement_type sql),
        columns := some cols, rows := some paginatedRows,
        rowCount := some paginatedRows.length, totalRows := some totalRows,
        page := some page, pageSize := some pageSize, totalPages := some totalPages,
        executionTimeMs := elapsedMs, warnings := warnings, isDangerous := isDang } none

def execute_write_query (_sql stmtType : String) (rowcount : Int) (elapsedMs : Nat)
    (warnings : List String) (isDang : Bool) : QueryResult :=
  let affectedRows := rowcount
  let isWrite := stmtType = "insert" ∨ stmtType = "update" ∨ stmtType = "delete"
  let message :=
    if isWrite then
      pyUpper stmtType ++ " completed successfully" ++
        (if affectedRows ≥ 0 then
          " - " ++ toString affectedRows ++ " row(s) affected" else "")
    else pyTitle (underscoreToSpace stmtType) ++ " completed successfully"
  .mk { type := if isWrite then "write" else "ddl", queryType := some stmtType,
        affectedRows := if affectedRows ≥ 0 then some affectedRows else none,
        executionTimeMs := elapsedMs, message := some message,
        warnings := warnings, isDangerous := isDang } none

/-- `SQLQueryEngine.execute_single_statement`: classify, analyze, run
against the driver; driver exceptions become `kind=error` results. -/
def execute_single_statement (db : Db) (sql : String) (page pageSize : Nat) :
    QueryResult :=
  let stmtType := detect_statement_type sql
  let d := is_dangerous_query sql
  match db.run sql with
  | .err msg =>
    .mk { type := "error", message := some msg, executionTimeMs := db.elapsed sql,
          warnings := d.2, isDangerous := d.1 } none
  | .exn msg =>
    .mk { type := "error", message := some ("Unexpected error: " ++ msg),
          executionTimeMs := db.elapsed sql, warnings := d.2, isDangerous := d.1 } none
  | .ok cols rows rowcount =>
    if stmtType = "select" ∨ stmtType = "show" ∨ stmtType = "describe" ∨
        stmtType = "explain" then
      execute_select_query cols rows sql page pageSize (db.elapsed sql) d.2 d.1
    else
      execute_write_query sql stmtType rowcount (db.elapsed sql) d.2 d.1

/-! ### `SQLQueryEngine._execute_multiple_statements` and `execute_query`

Alongside each result the model returns the trace of statements actually
sent to the driver, paired with the page number they were executed with
(used to state the no-side-effect and page-forcing claims). -/

/-- The statement loop: each statement runs with page 1 except the last,
which gets the caller's page; the loop stops after the first error. -/
def runStatements (db : Db) (page pageSize total : Nat) :
    Nat → List String → List QueryResult × List (String × Nat)
  | _, [] => ([], [])
  | i, stmt :: rest =>
    let p := if i = total - 1 then page else 1
    let r := execute_single_statement db stmt p pageSize
    if r.type = "error" then ([r], [(stmt, p)])
    else
      let t := runStatements db page pageSize total (i + 1) rest
      (r :: t.1, (stmt, p) :: t.2)

/-- `total_affected` accumulation with Python truthiness
(`if result.affectedRows:` skips `None` and `0`). -/
def truthyAffectedSum (results : List QueryResult) : Int :=
  results.foldl
    (fun acc r =>
      match r.affectedRows with
      | some n => if n ≠ 0 then acc + n else acc
      | none => acc)
    0

/-- `last_result.<field> if last_result and last_result.type == "select"
else None`. -/
def lastSelField {γ : Type} (lastResult : Option QueryResult)
    (f : QueryResult → Option γ) : Option γ :=
  match lastResult with
  | some lr => if lr.type = "select" then f lr else none
  | none => none

def execute_multiple_statements (db : Db) (statements : List String)
    (page pageSize : Nat) : QueryResult × List (String × Nat) :=
  let rt := runStatements db page pageSize statements.length 0 statements
  let results := rt.1
  let totalAffected := truthyAffectedSum results
  let lastResult := results.getLast?
  (.mk { type := "multi", queryType := some "multiple",
         executionTimeMs := db.multiElapsed,
         message := some ("Executed " ++ toString results.length ++
           " statements successfully"),
         affectedRows := if totalAffected > 0 then some totalAffected else none,
         columns := lastSelField lastResult (fun r => r.columns),
         rows := lastSelField lastResult (fun r => r.rows),
         rowCount := lastSelField lastResult (fun r => r.rowCount),
         totalRows := lastSelField lastResult (fun r => r.totalRows),
         page := lastSelField lastResult (fun r => r.page),
         pageSize := lastSelField lastResult (fun r => r.pageSize),
         totalPages := lastSelField lastResult (fun r => r.totalPages) }
    (some results), rt.2)

/-- The dangerous-statement scan at the top of `execute_query`:
`overall_dangerous` plus `all_warnings` extended per dangerous statement. -/
def collectDanger (statements : List String) : Bool × List String :=
  statements.foldl
    (fun acc stmt =>
      let d := is_dangerous_query stmt
      (acc.1 || d.1, acc.2 ++ if d.1 then d.2 else []))
    (false, [])

/-- The refusal message for unconfirmed dangerous queries. -/
def msgDangerRefused : String :=
  "Dangerous query detected. Please review and confirm execution."

/-- The refusal message for multi-statement queries without the opt-in
flag (the source text quotes the UI label in single quotes). -/
def msgMultiRefused : String :=
  "Multiple statements detected. Enable " ++ String.mk [squoteChar] ++
    "Allow Multiple Statements" ++ String.mk [squoteChar] ++ " to execute."

/-- `SQLQueryEngine.execute_query`.  Returns `none` where the Python
raises an uncaught exception (`statements[0]` on an empty statement
list — `IndexError`). -/
def execute_query (db : Db) (sql : String) (page pageSize : Nat)
    (allowMultiple confirmDangerous : Bool) :
    Option (QueryResult × List (String × Nat)) :=
  let statements := split_statements sql
  let danger := collectDanger statements
  let dangerFields : ResultFields :=
    { type := "error", message := some msgDangerRefused,
      executionTimeMs := 0, warnings := danger.2, isDangerous := true }
  let multiRefusedFields : ResultFields :=
    { type := "error", message := some msgMultiRefused,
      executionTimeMs := 0,
      warnings := ["Multiple SQL statements found in query"] }
  if danger.1 = true ∧ confirmDangerous = false then
    some (QueryResult.mk dangerFields none, [])
  else if statements.length > 1 then
    if allowMultiple = false then
      some (QueryResult.mk multiRefusedFields none, [])
    else some (execute_multiple_statements db statements page pageSize)
  else
    match statements with
    | [] => none
    | s :: _ => some (execute_single_statement db s page pageSize, [(s, page)])

/-! ### Connector type mappers (`db_connectors.py`) -/

/-- `MySQLConnector._map_mysql_type`'s dictionary, keyed by the
`mysql.connector.FieldType` protocol constants. -/
def mysql_type_mapping : List (Int × String) :=
  [(0, "DECIMAL"), (1, "TINYINT"), (2, "SMALLINT"), (3, "INT"), (4, "FLOAT"),
   (5, "DOUBLE"), (6, "NULL"), (7, "TIMESTAMP"), (8, "BIGINT"), (9, "MEDIUMINT"),
   (10, "DATE"), (11, "TIME"), (12, "DATETIME"), (13, "YEAR"), (14, "DATE"),
   (15, "VARCHAR"), (16, "BIT"), (245, "JSON"), (246, "DECIMAL"), (247, "ENUM"),
   (248, "SET"), (249, "TINYBLOB"), (250, "MEDIUMBLOB"), (251, "LONGBLOB"),
   (252, "BLOB"), (253, "VARCHAR"), (254, "CHAR"), (255, "GEOMETRY")]

/-- `MySQLConnector._map_mysql_type` (the `FieldType` branch): the
fallback for unknown codes is the literal `"VARCHAR"`. -/
def map_mysql_type (code : Int) : String :=
  (mysql_type_mapping.lookup code).getD "VARCHAR"

/-- `MSSQLConnector._map_sql_server_type`'s dictionary (ODBC codes). -/
def sql_type_mapping : List (Int × String) :=
  [(-150, "UNIQUEIDENTIFIER"), (-9, "NVARCHAR"), (-8, "NCHAR"), (-7, "BIT"),
   (-6, "TINYINT"), (-5, "BIGINT"), (-4, "VARBINARY"), (-3, "VARBINARY"),
   (-2, "BINARY"), (-1, "TEXT"), (1, "CHAR"), (2, "NUMERIC"), (3, "DECIMAL"),
   (4, "INT"), (5, "SMALLINT"), (6, "FLOAT"), (7, "REAL"), (8, "DOUBLE"),
   (9, "DATETIME"), (12, "VARCHAR"), (91, "DATE"), (92, "TIME"),
   (93, "TIMESTAMP"), (-11, "DATETIME2"), (-154, "TIME"), (-155, "DATETIMEOFFSET")]

/-- `MSSQLConnector._map_sql_server_type`. -/
def map_sql_server_type (code : Int) : String :=
  (sql_type_mapping.lookup code).getD ("UNKNOWN(" ++ toString code ++ ")")

/-- `PostgreSQLConnector._map_postgresql_type`'s dictionary (type OIDs). -/
def pg_type_mapping : List (Int × String) :=
  [(16, "BOOLEAN"), (17, "BYTEA"), (18, "CHAR"), (19, "NAME"), (20, "BIGINT"),
   (21, "SMALLINT"), (22, "INT2VECTOR"), (23, "INTEGER"), (24, "REGPROC"),
   (25, "TEXT"), (26, "OID"), (27, "TID"), (28, "XID"), (29, "CID"),
   (114, "JSON"), (142, "XML"), (700, "REAL"), (701, "DOUBLE PRECISION"),
   (1043, "VARCHAR"), (1082, "DATE"), (1083, "TIME"), (1114, "TIMESTAMP"),
   (1184, "TIMESTAMPTZ"), (1266, "TIMETZ"), (1700, "NUMERIC"), (2950, "UUID"),
   (3802, "JSONB")]

/-- `PostgreSQLConnector._map_postgresql_type`. -/
def map_postgresql_type (code : Int) : String :=
  (pg_type_mapping.lookup code).getD ("UNKNOWN(" ++ toString code ++ ")")

/-! ### Accessor equations -/

@[simp] theorem QueryResult.fields_mk (f : ResultFields) (r : Option (List QueryResult)) :
    (QueryResult.mk f r).fields = f := rfl

@[simp] theorem QueryResult.results_mk (f : ResultFields) (r : Option (List QueryResult)) :
    (QueryResult.mk f r).results = r := rfl

/-! ### Concrete database oracles used by witnesses and counterexamples -/

/-- A driver where every statement succeeds with a small result set. -/
def dbAllOk : Db :=
  { run := fun _ => .ok [⟨"c", "INT"⟩] [["1"], ["2"], ["3"]] (-1),
    elapsed := fun _ => 7, multiElapsed := 3 }

/-- A driver where every statement succeeds with an empty result set. -/
def dbStub : Db :=
  { run := fun _ => .ok [] [] 0, elapsed := fun _ => 7, multiElapsed := 3 }

/-- A driver that raises `mysql.connector.Error` on every statement. -/
def dbAlwaysErr : Db :=
  { run := fun _ => .err "boom", elapsed := fun _ => 7, multiElapsed := 3 }

/-- A driver that fails exactly on the statement text `"BAD"`. -/
def dbBadErr : Db :=
  { run := fun s => if s = "BAD" then .err "boom" else .ok [] [] 0,
    elapsed := fun _ => 7, multiElapsed := 3 }

/-! ### C5 -/

/-- C5: the claim says an `UPDATE` with a `WHERE` clause is not flagged by
the no-WHERE pattern.  The code flags it: the negative lookahead
`(?!.*WHERE)` sits after the `;|$` terminator, where no text can follow,
so `UPDATE t SET x=1 WHERE id=2` is reported dangerous with the
no-WHERE-clause warning — contradicting the source's own
`# UPDATE without WHERE` comment. -/
theorem c5_update_with_where_is_flagged :
    (is_dangerous_query "UPDATE t SET x=1 WHERE id=2").1 = true ∧
    (is_dangerous_query "UPDATE t SET x=1 WHERE id=2").2 = [warnUpdate] ∧
    (is_dangerous_query "UPDATE t SET x=1").1 = true := by decide

/-! ### C6 -/

/-- C6: `DELETE FROM t` is flagged dangerous and `DELETE FROM t WHERE
id=1` is not, as the claim says; but no warning is attached: the branch
`'DELETE FROM' in pattern` tests the raw regex text, which spells the gap
as `\s+`, so the DELETE warning branch is dead code. -/
theorem c6_delete_flagged_but_no_warning :
    (is_dangerous_query "DELETE FROM t").1 = true ∧
    (is_dangerous_query "DELETE FROM t").2 = [] ∧
    (is_dangerous_query "DELETE FROM t WHERE id=1").1 = false ∧
    (is_dangerous_query "DELETE FROM t WHERE id=1").2 = [] := by decide

/-! ### C8 -/

/-- C8 counterexample: the MySQL type mapper's fallback for a code not in
its dictionary is the literal `"VARCHAR"`, not the `UNKNOWN(<code>)`
sentinel the claim asserts (17 is not a `FieldType` constant). -/
theorem c8_counterexample_mysql_fallback :
    map_mysql_type 17 = "VARCHAR" ∧ map_mysql_type 17 ≠ "UNKNOWN(17)" := by decide

/-- C8 (amended), per backend: a code outside the MSSQL dictionary maps
to the sentinel `UNKNOWN(<code>)`, a code outside the PostgreSQL
dictionary likewise, and a code outside the MySQL dictionary falls back
to `"VARCHAR"`; each mapper is total (never raises), whatever the other
backends' dictionaries contain. -/
theorem c8_unknown_type_mapping (code : Int) :
    (code ∉ sql_type_mapping.map Prod.fst →
      map_sql_server_type code = "UNKNOWN(" ++ toString code ++ ")") ∧
    (code ∉ pg_type_mapping.map Prod.fst →
      map_postgresql_type code = "UNKNOWN(" ++ toString code ++ ")") ∧
    (code ∉ mysql_type_mapping.map Prod.fst →
      map_mysql_type code = "VARCHAR") := by
  refine ⟨fun h1 => ?_, fun h2 => ?_, fun h3 => ?_⟩ <;>
    simp only [map_sql_server_type, map_postgresql_type, map_mysql_type]
  · rw [List.lookup_eq_none_iff.mpr ?_, Option.getD_none]
    intro p hp
    simp only [bne_iff_ne, ne_eq]
    intro hk
    exact h1 (List.mem_map.mpr ⟨p, hp, hk.symm⟩)
  · rw [List.lookup_eq_none_iff.mpr ?_, Option.getD_none]
    intro p hp
    simp only [bne_iff_ne, ne_eq]
    intro hk
    exact h2 (List.mem_map.mpr ⟨p, hp, hk.symm⟩)
  · rw [List.lookup_eq_none_iff.mpr ?_, Option.getD_none]
    intro p hp
    simp only [bne_iff_ne, ne_eq]
    intro hk
    exact h3 (List.mem_map.mpr ⟨p, hp, hk.symm⟩)

/-- Witness for `c8_unknown_type_mapping`, one code per backend: 16 is
absent from the MSSQL dictionary (though present in the PostgreSQL and
MySQL ones), 12 is absent from the PostgreSQL dictionary, and 17 is
absent from the MySQL dictionary. -/
theorem c8_unknown_type_mapping_witness :
    map_sql_server_type 16 = "UNKNOWN(" ++ toString (16 : Int) ++ ")" ∧
    map_postgresql_type 12 = "UNKNOWN(" ++ toString (12 : Int) ++ ")" ∧
    map_mysql_type 17 = "VARCHAR" :=
  ⟨(c8_unknown_type_mapping 16).1 (by decide),
   (c8_unknown_type_mapping 12).2.1 (by decide),
   (c8_unknown_type_mapping 17).2.2 (by decide)⟩

/-! ### C9 counterexample -/

/-- C9 counterexample: on empty or whitespace-only input the statement
list is empty and `execute_query` evaluates `statements[0]`, raising an
uncaught `IndexError` (modelled as `none`) instead of returning a
structured result. -/
theorem c9_counterexample_empty_raises :
    (execute_query dbStub "" 1 10 false false).isNone = true ∧
    (execute_query dbStub "   " 1 10 false false).isNone = true := by decide

/-! ### Properties of the danger-collection folds -/

theorem danger_fold_fst_true (sql : String) (pats : List String) :
    ∀ ws : List String,
      (pats.foldl
        (fun acc pattern =>
          if reSearch pattern sql then (true, acc.2 ++ warningFor pattern) else acc)
        (true, ws)).1 = true := by
  induction pats with
  | nil => intro ws; rfl
  | cons p rest ih =>
    intro ws
    simp only [List.foldl_cons]
    by_cases h : reSearch p sql
    · simpa [h] using ih (ws ++ warningFor p)
    · simpa [h] using ih ws

theorem danger_fold_false (sql : String) (pats : List String) :
    ∀ (b : Bool) (ws : List String),
      (pats.foldl
        (fun acc pattern =>
          if reSearch pattern sql then (true, acc.2 ++ warningFor pattern) else acc)
        (b, ws)).1 = false →
      b = false ∧
      (pats.foldl
        (fun acc pattern =>
          if reSearch pattern sql then (true, acc.2 ++ warningFor pattern) else acc)
        (b, ws)).2 = ws := by
  induction pats with
  | nil => intro b ws h; exact ⟨h, rfl⟩
  | cons p rest ih =>
    intro b ws h
    simp only [List.foldl_cons] at h ⊢
    by_cases hp : reSearch p sql
    · rw [if_pos hp] at h
      exact absurd h (by simp [danger_fold_fst_true sql rest])
    · rw [if_neg hp] at h ⊢
      exact ih b ws h

/-- A statement not classified dangerous collects no warnings. -/
theorem no_warnings_of_not_dangerous (s : String)
    (h : (is_dangerous_query s).1 = false) : (is_dangerous_query s).2 = [] := by
  unfold is_dangerous_query at h ⊢
  exact (danger_fold_false s DANGEROUS_PATTERNS false [] h).2

theorem collectDanger_go (stmts : List String) :
    ∀ (b : Bool) (ws : List String),
      stmts.foldl
        (fun acc stmt =>
          let d := is_dangerous_query stmt
          (acc.1 || d.1, acc.2 ++ if d.1 then d.2 else []))
        (b, ws)
      = (b || stmts.any (fun s => (is_dangerous_query s).1),
         ws ++ (stmts.map
           (fun s => if (is_dangerous_query s).1 then (is_dangerous_query s).2 else [])).flatten) := by
  induction stmts with
  | nil => intro b ws; simp
  | cons s rest ih =>
    intro b ws
    simp only [List.foldl_cons, List.any_cons, List.map_cons, List.flatten]
    rw [ih]
    simp [Bool.or_assoc, List.append_assoc]

theorem collectDanger_spec (stmts : List String) :
    collectDanger stmts
      = (stmts.any (fun s => (is_dangerous_query s).1),
         (stmts.map
           (fun s => if (is_dangerous_query s).1 then (is_dangerous_query s).2 else [])).flatten) := by
  unfold collectDanger
  rw [collectDanger_go]
  simp

/-- The warnings collected by `execute_query` are exactly the
concatenation, in order, of every statement's analyzer warnings. -/
theorem collectDanger_warnings_join (stmts : List String) :
    (collectDanger stmts).2 = (stmts.map (fun s => (is_dangerous_query s).2)).flatten := by
  rw [collectDanger_spec]
  refine congrArg List.flatten (List.map_congr_left ?_)
  intro s _
  by_cases h : (is_dangerous_query s).1
  · rw [if_pos h]
  · rw [if_neg h, no_warnings_of_not_dangerous s (by simpa using h)]

/-! ### C3 -/

/-- C3: if any statement of the query is classified dangerous and the
confirmation flag is not set, `execute_query` refuses with a kind=error,
isDangerous, zero-time result carrying every collected warning, and no
statement reaches the driver (empty execution trace). -/
theorem c3_dangerous_refusal (db : Db) (sql : String) (page pageSize : Nat)
    (allowMultiple : Bool)
    (h : ∃ s ∈ split_statements sql, (is_dangerous_query s).1 = true) :
    ∃ r : QueryResult,
      execute_query db sql page pageSize allowMultiple false = some (r, []) ∧
      r.type = "error" ∧ r.isDangerous = true ∧ r.executionTimeMs = 0 ∧
      r.message = some msgDangerRefused ∧
      r.warnings = ((split_statements sql).map (fun s => (is_dangerous_query s).2)).flatten := by
  have hflag : (collectDanger (split_statements sql)).1 = true := by
    rw [collectDanger_spec]
    simpa only [List.any_eq_true] using h
  refine ⟨QueryResult.mk
    { type := "error", message := some msgDangerRefused, executionTimeMs := 0,
      warnings := (collectDanger (split_statements sql)).2, isDangerous := true } none,
    ?_, rfl, rfl, rfl, rfl, ?_⟩
  · unfold execute_query
    rw [if_pos ⟨hflag, rfl⟩]
  · simpa [QueryResult.warnings, QueryResult.fields] using
      collectDanger_warnings_join (split_statements sql)

/-- Witness for `c3_dangerous_refusal` on `TRUNCATE TABLE t`. -/
theorem c3_dangerous_refusal_witness :
    ∃ r : QueryResult,
      execute_query dbStub "TRUNCATE TABLE t" 1 10 false false = some (r, []) ∧
      r.type = "error" ∧ r.isDangerous = true ∧ r.executionTimeMs = 0 ∧
      r.message = some msgDangerRefused ∧
      r.warnings = ((split_statements "TRUNCATE TABLE t").map
        (fun s => (is_dangerous_query s).2)).flatten :=
  c3_dangerous_refusal dbStub "TRUNCATE TABLE t" 1 10 false
    ⟨"TRUNCATE TABLE t", by decide, by decide⟩

/-! ### C7 -/

/-- C7: when the query splits into more than one statement, the
multi-statement opt-in is off, and the dangerous-query short-circuit did
not fire first, `execute_query` refuses with a kind=error result telling
the caller to enable multi-statement execution, and no statement reaches
the driver (empty execution trace). -/
theorem c7_multi_refusal (db : Db) (sql : String) (page pageSize : Nat)
    (confirmDangerous : Bool)
    (hmulti : 1 < (split_statements sql).length)
    (hsafe : (∀ s ∈ split_statements sql, (is_dangerous_query s).1 = false) ∨
      confirmDangerous = true) :
    ∃ r : QueryResult,
      execute_query db sql page pageSize false confirmDangerous = some (r, []) ∧
      r.type = "error" ∧ r.message = some msgMultiRefused ∧
      r.executionTimeMs = 0 ∧
      r.warnings = ["Multiple SQL statements found in query"] := by
  have hcond : ¬((collectDanger (split_statements sql)).1 = true ∧ confirmDangerous = false) := by
    rintro ⟨h1, h2⟩
    rcases hsafe with hall | hc
    · rw [collectDanger_spec] at h1
      simp only [List.any_eq_true] at h1
      obtain ⟨s, hs, hd⟩ := h1
      rw [hall s hs] at hd
      cases hd
    · rw [hc] at h2
      cases h2
  refine ⟨QueryResult.mk
    { type := "error", message := some msgMultiRefused, executionTimeMs := 0,
      warnings := ["Multiple SQL statements found in query"] } none,
    ?_, rfl, rfl, rfl, rfl⟩
  unfold execute_query
  rw [if_neg hcond, if_pos hmulti, if_pos rfl]

/-- Witness for `c7_multi_refusal` on `SELECT 1; SELECT 2`. -/
theorem c7_multi_refusal_witness :
    ∃ r : QueryResult,
      execute_query dbStub "SELECT 1; SELECT 2" 1 10 false false = some (r, []) ∧
      r.type = "error" ∧ r.message = some msgMultiRefused ∧
      r.executionTimeMs = 0 ∧
      r.warnings = ["Multiple SQL statements found in query"] :=
  c7_multi_refusal dbStub "SELECT 1; SELECT 2" 1 10 false (by decide)
    (Or.inl (by decide))

/-! ### C1 -/

/-- C1: a SELECT-shaped execution returns exactly the slice
`[(page-1)*pageSize, page*pageSize)` of the materialized rows (stated
element-wise), `rowCount` is its length
`min pageSize (totalRows - (page-1)*pageSize)`, `totalRows` is the full
count, and `totalPages = max 1 (ceil (totalRows / pageSize))`. -/
theorem c1_select_pagination (cols : List Column) (allRows : List Row) (sql : String)
    (page pageSize elapsedMs : Nat) (warnings : List String) (isDang : Bool)
    (_hp : 1 ≤ page) (hps : 1 ≤ pageSize) :
    (execute_select_query cols allRows sql page pageSize elapsedMs warnings isDang).rows
      = some ((allRows.drop ((page - 1) * pageSize)).take pageSize) ∧
    (∀ i : Nat, ((allRows.drop ((page - 1) * pageSize)).take pageSize)[i]?
      = if i < pageSize then allRows[(page - 1) * pageSize + i]? else none) ∧
    (execute_select_query cols allRows sql page pageSize elapsedMs warnings isDang).rowCount
      = some (min pageSize (allRows.length - (page - 1) * pageSize)) ∧
    (execute_select_query cols allRows sql page pageSize elapsedMs warnings isDang).totalRows
      = some allRows.length ∧
    (execute_select_query cols allRows sql page pageSize elapsedMs warnings isDang).totalPages
      = some (max 1 ((allRows.length + pageSize - 1) / pageSize)) := by
  refine ⟨rfl, ?_, ?_, rfl, ?_⟩
  · intro i
    by_cases hi : i < pageSize
    · rw [List.getElem?_take_of_lt hi, List.getElem?_drop, if_pos hi]
    · rw [List.getElem?_take_eq_none (Nat.le_of_not_lt hi), if_neg hi]
  · simp [execute_select_query, QueryResult.rowCount, QueryResult.fields,
      List.length_take, List.length_drop]
  · simp only [execute_select_query, QueryResult.totalPages, QueryResult.fields]
    by_cases ht : allRows.length > 0
    · rw [if_pos ht]
      congr 1
      refine (Nat.max_eq_right ?_).symm
      rw [Nat.le_div_iff_mul_le (by omega : 0 < pageSize)]
      omega
    · rw [if_neg ht]
      have hz : allRows.length = 0 := by omega
      rw [hz]
      have hdiv : (0 + pageSize - 1) / pageSize = 0 := Nat.div_eq_of_lt (by omega)
      rw [hdiv]
      rfl

/-- Witness for `c1_select_pagination`: three rows, page 2 of size 2. -/
theorem c1_select_pagination_witness :
    (execute_select_query [] [["1"], ["2"], ["3"]] "SELECT 1" 2 2 7 [] false).rows
      = some (([["1"], ["2"], ["3"]].drop ((2 - 1) * 2)).take 2) ∧
    (∀ i : Nat, (([["1"], ["2"], ["3"]].drop ((2 - 1) * 2)).take 2)[i]?
      = if i < 2 then [["1"], ["2"], ["3"]][(2 - 1) * 2 + i]? else none) ∧
    (execute_select_query [] [["1"], ["2"], ["3"]] "SELECT 1" 2 2 7 [] false).rowCount
      = some (min 2 ([["1"], ["2"], ["3"]].length - (2 - 1) * 2)) ∧
    (execute_select_query [] [["1"], ["2"], ["3"]] "SELECT 1" 2 2 7 [] false).totalRows
      = some [["1"], ["2"], ["3"]].length ∧
    (execute_select_query [] [["1"], ["2"], ["3"]] "SELECT 1" 2 2 7 [] false).totalPages
      = some (max 1 (([["1"], ["2"], ["3"]].length + 2 - 1) / 2)) :=
  c1_select_pagination [] [["1"], ["2"], ["3"]] "SELECT 1" 2 2 7 [] false
    (by decide) (by decide)

/-! ### Properties of the multi-statement loop -/

theorem getLast?_cons_of_ne_nil {α : Type} (a : α) (l : List α) (h : l ≠ []) :
    (a :: l).getLast? = l.getLast? := by
  cases l with
  | nil => exact absurd rfl h
  | cons b bs => exact List.getLast?_cons_cons

theorem runStatements_cons_error (db : Db) (page ps total i : Nat)
    (stmt : String) (rest : List String)
    (h : (execute_single_statement db stmt (if i = total - 1 then page else 1) ps).type
      = "error") :
    runStatements db page ps total i (stmt :: rest)
      = ([execute_single_statement db stmt (if i = total - 1 then page else 1) ps],
         [(stmt, if i = total - 1 then page else 1)]) := by
  simp [runStatements, h]

theorem runStatements_cons_ok (db : Db) (page ps total i : Nat)
    (stmt : String) (rest : List String)
    (h : ¬(execute_single_statement db stmt (if i = total - 1 then page else 1) ps).type
      = "error") :
    runStatements db page ps total i (stmt :: rest)
      = (execute_single_statement db stmt (if i = total - 1 then page else 1) ps ::
          (runStatements db page ps total (i + 1) rest).1,
         (stmt, if i = total - 1 then page else 1) ::
          (runStatements db page ps total (i + 1) rest).2) := by
  simp [runStatements, h]

theorem runStatements_length (db : Db) (page ps total : Nat) :
    ∀ (l : List String) (i : Nat),
      (runStatements db page ps total i l).1.length ≤ l.length ∧
      (runStatements db page ps total i l).2.length
        = (runStatements db page ps total i l).1.length := by
  intro l
  induction l with
  | nil => intro i; simp [runStatements]
  | cons stmt rest ih =>
    intro i
    by_cases h : (execute_single_statement db stmt
        (if i = total - 1 then page else 1) ps).type = "error"
    · rw [runStatements_cons_error db page ps total i stmt rest h]
      simp
    · rw [runStatements_cons_ok db page ps total i stmt rest h]
      have := ih (i + 1)
      constructor
      · simpa using Nat.succ_le_succ this.1
      · simpa using this.2

theorem runStatements_ne_nil (db : Db) (page ps total : Nat)
    (l : List String) (i : Nat) (h : l ≠ []) :
    (runStatements db page ps total i l).1 ≠ [] := by
  cases l with
  | nil => exact absurd rfl h
  | cons stmt rest =>
    by_cases he : (execute_single_statement db stmt
        (if i = total - 1 then page else 1) ps).type = "error"
    · rw [runStatements_cons_error db page ps total i stmt rest he]
      simp
    · rw [runStatements_cons_ok db page ps total i stmt rest he]
      simp

theorem runStatements_get? (db : Db) (page ps total : Nat) :
    ∀ (l : List String) (i j : Nat) (r0 : QueryResult),
      (runStatements db page ps total i l).1[j]? = some r0 →
      ∃ s, l[j]? = some s ∧
        r0 = execute_single_statement db s (if i + j = total - 1 then page else 1) ps := by
  intro l
  induction l with
  | nil => intro i j r0 h; simp [runStatements] at h
  | cons stmt rest ih =>
    intro i j r0 h
    by_cases he : (execute_single_statement db stmt
        (if i = total - 1 then page else 1) ps).type = "error"
    · rw [runStatements_cons_error db page ps total i stmt rest he] at h
      cases j with
      | zero =>
        simp at h
        exact ⟨stmt, by simp, by simpa [Nat.add_zero] using h.symm⟩
      | succ k => simp at h
    · rw [runStatements_cons_ok db page ps total i stmt rest he] at h
      cases j with
      | zero =>
        simp at h
        exact ⟨stmt, by simp, by simpa [Nat.add_zero] using h.symm⟩
      | succ k =>
        simp only [List.getElem?_cons_succ] at h
        obtain ⟨s, hs, hr⟩ := ih (i + 1) k r0 h
        refine ⟨s, by simpa using hs, ?_⟩
        have harith : i + 1 + k = i + (k + 1) := by omega
        rw [harith] at hr
        exact hr

theorem runStatements_trace_get? (db : Db) (page ps total : Nat) :
    ∀ (l : List String) (i j : Nat) (e : String × Nat),
      (runStatements db page ps total i l).2[j]? = some e →
      ∃ s, l[j]? = some s ∧
        e = (s, if i + j = total - 1 then page else 1) := by
  intro l
  induction l with
  | nil => intro i j e h; simp [runStatements] at h
  | cons stmt rest ih =>
    intro i j e h
    by_cases he : (execute_single_statement db stmt
        (if i = total - 1 then page else 1) ps).type = "error"
    · rw [runStatements_cons_error db page ps total i stmt rest he] at h
      cases j with
      | zero =>
        simp at h
        exact ⟨stmt, by simp, by simpa [Nat.add_zero] using h.symm⟩
      | succ k => simp at h
    · rw [runStatements_cons_ok db page ps total i stmt rest he] at h
      cases j with
      | zero =>
        simp at h
        exact ⟨stmt, by simp, by simpa [Nat.add_zero] using h.symm⟩
      | succ k =>
        simp only [List.getElem?_cons_succ] at h
        obtain ⟨s, hs, hr⟩ := ih (i + 1) k e h
        refine ⟨s, by simpa using hs, ?_⟩
        have harith : i + 1 + k = i + (k + 1) := by omega
        rw [harith] at hr
        exact hr

theorem runStatements_no_error_before_last (db : Db) (page ps total : Nat) :
    ∀ (l : List String) (i j : Nat) (r0 : QueryResult),
      (runStatements db page ps total i l).1[j]? = some r0 →
      j + 1 < (runStatements db page ps total i l).1.length →
      r0.type ≠ "error" := by
  intro l
  induction l with
  | nil => intro i j r0 h _; simp [runStatements] at h
  | cons stmt rest ih =>
    intro i j r0 h hlt
    by_cases he : (execute_single_statement db stmt
        (if i = total - 1 then page else 1) ps).type = "error"
    · rw [runStatements_cons_error db page ps total i stmt rest he] at h hlt
      simp at hlt
    · rw [runStatements_cons_ok db page ps total i stmt rest he] at h hlt
      cases j with
      | zero =>
        simp at h
        rw [← h]
        exact he
      | succ k =>
        simp only [List.getElem?_cons_succ] at h
        simp only [List.length_cons] at hlt
        exact ih (i + 1) k r0 h (by omega)

theorem runStatements_abort_last_error (db : Db) (page ps total : Nat) :
    ∀ (l : List String) (i : Nat),
      (runStatements db page ps total i l).1.length < l.length →
      ∃ le, (runStatements db page ps total i l).1.getLast? = some le ∧
        le.type = "error" := by
  intro l
  induction l with
  | nil => intro i h; simp [runStatements] at h
  | cons stmt rest ih =>
    intro i h
    by_cases he : (execute_single_statement db stmt
        (if i = total - 1 then page else 1) ps).type = "error"
    · rw [runStatements_cons_error db page ps total i stmt rest he]
      exact ⟨_, rfl, he⟩
    · rw [runStatements_cons_ok db page ps total i stmt rest he] at h
      simp only [List.length_cons] at h
      have hrest : (runStatements db page ps total (i + 1) rest).1.length < rest.length := by
        omega
      have hrne : rest ≠ [] := by
        intro hnil
        rw [hnil] at hrest
        simp at hrest
      obtain ⟨le, hle, ht⟩ := ih (i + 1) hrest
      have hnn := runStatements_ne_nil db page ps total rest (i + 1) hrne
      refine ⟨le, ?_, ht⟩
      have hgoal : (runStatements db page ps total i (stmt :: rest)).1
          = execute_single_statement db stmt (if i = total - 1 then page else 1) ps
            :: (runStatements db page ps total (i + 1) rest).1 := by
        rw [runStatements_cons_ok db page ps total i stmt rest he]
      rw [hgoal, getLast?_cons_of_ne_nil _ _ hnn, hle]

theorem truthyAffectedSum_eq (rs : List QueryResult) :
    truthyAffectedSum rs = (rs.map (fun q => q.affectedRows.getD 0)).sum := by
  suffices h : ∀ a : Int,
      rs.foldl
        (fun acc r =>
          match r.affectedRows with
          | some n => if n ≠ 0 then acc + n else acc
          | none => acc) a
      = a + (rs.map (fun q => q.affectedRows.getD 0)).sum by
    simpa [truthyAffectedSum] using h 0
  induction rs with
  | nil => intro a; simp
  | cons r rest ih =>
    intro a
    simp only [List.foldl_cons, List.map_cons, List.sum_cons]
    cases har : r.affectedRows with
    | none =>
      rw [ih]
      simp
    | some n =>
      have hred : (match some n with
          | some m => if m ≠ 0 then a + m else a
          | none => a) = if n ≠ 0 then a + n else a := rfl
      rw [hred]
      by_cases hn : n = 0
      · rw [if_neg (by simpa using hn)]
        rw [ih]
        simp [hn]
      · rw [if_pos hn]
        rw [ih]
        have hgd : (some n).getD 0 = n := rfl
        rw [hgd]
        omega

/-! ### C4 -/

/-- C4 counterexample: two SELECT statements give sub-results whose
affectedRows sum to 0, but the top-level `affectedRows` is `None`
(`total_affected if total_affected > 0 else None`), not that sum. -/
theorem c4_counterexample_affected_rows :
    (execute_multiple_statements dbStub ["SELECT 1", "SELECT 2"] 1 10).1.affectedRows
      = none ∧
    ((execute_multiple_statements dbStub ["SELECT 1", "SELECT 2"] 1 10).1.results).map
      (fun rs => (rs.map (fun q => q.affectedRows.getD 0)).sum) = some 0 := by
  constructor
  · rfl
  · rfl

/-- C4 (amended): with several statements, each executed sub-result is the
single-statement execution of the corresponding input statement (page 1
except for the last, which gets the caller's page), execution stops after
the first kind=error sub-result, `subResults` holds every executed
sub-result in order, the top-level `affectedRows` is the sum of the
sub-results' affectedRows when that sum is positive and absent otherwise,
and the last sub-result's select-shaped fields are surfaced at the top
level exactly when it has kind=select. -/
theorem c4_multi_execution (db : Db) (stmts : List String) (page ps : Nat)
    (_hp : 1 ≤ page) (_hps : 1 ≤ ps) (hne : stmts ≠ []) :
    ∃ (rs : List QueryResult) (lastR : QueryResult),
      (execute_multiple_statements db stmts page ps).1.results = some rs ∧
      (execute_multiple_statements db stmts page ps).1.type = "multi" ∧
      rs ≠ [] ∧
      rs.length ≤ stmts.length ∧
      (execute_multiple_statements db stmts page ps).2.length = rs.length ∧
      (∀ (j : Nat) (r0 : QueryResult), rs[j]? = some r0 →
        ∃ s, stmts[j]? = some s ∧
          r0 = execute_single_statement db s
            (if j = stmts.length - 1 then page else 1) ps) ∧
      (∀ (j : Nat) (r0 : QueryResult), rs[j]? = some r0 → j + 1 < rs.length →
        r0.type ≠ "error") ∧
      (rs.length < stmts.length →
        ∃ le, rs.getLast? = some le ∧ le.type = "error") ∧
      ((execute_multiple_statements db stmts page ps).1.affectedRows
        = if 0 < (rs.map (fun q => q.affectedRows.getD 0)).sum
          then some ((rs.map (fun q => q.affectedRows.getD 0)).sum) else none) ∧
      rs.getLast? = some lastR ∧
      (lastR.type = "select" →
        (execute_multiple_statements db stmts page ps).1.columns = lastR.columns ∧
        (execute_multiple_statements db stmts page ps).1.rows = lastR.rows ∧
        (execute_multiple_statements db stmts page ps).1.rowCount = lastR.rowCount ∧
        (execute_multiple_statements db stmts page ps).1.totalRows = lastR.totalRows ∧
        (execute_multiple_statements db stmts page ps).1.page = lastR.page ∧
        (execute_multiple_statements db stmts page ps).1.pageSize = lastR.pageSize ∧
        (execute_multiple_statements db stmts page ps).1.totalPages = lastR.totalPages) ∧
      (lastR.type ≠ "select" →
        (execute_multiple_statements db stmts page ps).1.columns = none ∧
        (execute_multiple_statements db stmts page ps).1.rows = none ∧
        (execute_multiple_statements db stmts page ps).1.rowCount = none ∧
        (execute_multiple_statements db stmts page ps).1.totalRows = none ∧
        (execute_multiple_statements db stmts page ps).1.page = none ∧
        (execute_multiple_statements db stmts page ps).1.pageSize = none ∧
        (execute_multiple_statements db stmts page ps).1.totalPages = none) := by
  have hne2 := runStatements_ne_nil db page ps stmts.length stmts 0 hne
  obtain ⟨lastR, hlast⟩ :
      ∃ x, (runStatements db page ps stmts.length 0 stmts).1.getLast? = some x := by
    cases hcase : (runStatements db page ps stmts.length 0 stmts).1 with
    | nil => exact absurd hcase hne2
    | cons b bs => exact ⟨(b :: bs).getLast (by simp), List.getLast?_eq_getLast _ _⟩
  have hsel : ∀ {γ : Type} (f : QueryResult → Option γ), lastR.type = "select" →
      lastSelField ((runStatements db page ps stmts.length 0 stmts).1.getLast?) f
        = f lastR := by
    intro γ f hs
    rw [hlast]
    simp [lastSelField, hs]
  have hnosel : ∀ {γ : Type} (f : QueryResult → Option γ), lastR.type ≠ "select" →
      lastSelField ((runStatements db page ps stmts.length 0 stmts).1.getLast?) f
        = none := by
    intro γ f hs
    rw [hlast]
    simp [lastSelField, hs]
  refine ⟨(runStatements db page ps stmts.length 0 stmts).1, lastR, rfl, rfl, hne2,
    (runStatements_length db page ps stmts.length stmts 0).1,
    (runStatements_length db page ps stmts.length stmts 0).2,
    ?_, ?_, ?_, ?_, hlast, ?_, ?_⟩
  · intro j r0 h
    obtain ⟨s, hs, hr⟩ := runStatements_get? db page ps stmts.length stmts 0 j r0 h
    rw [Nat.zero_add] at hr
    exact ⟨s, hs, hr⟩
  · exact fun j r0 h hlt =>
      runStatements_no_error_before_last db page ps stmts.length stmts 0 j r0 h hlt
  · exact fun hlt => runStatements_abort_last_error db page ps stmts.length stmts 0 hlt
  · rw [← truthyAffectedSum_eq]
    rfl
  · intro hs
    exact ⟨hsel (fun r => r.columns) hs, hsel (fun r => r.rows) hs,
      hsel (fun r => r.rowCount) hs, hsel (fun r => r.totalRows) hs,
      hsel (fun r => r.page) hs, hsel (fun r => r.pageSize) hs,
      hsel (fun r => r.totalPages) hs⟩
  · intro hs
    exact ⟨hnosel (fun r => r.columns) hs, hnosel (fun r => r.rows) hs,
      hnosel (fun r => r.rowCount) hs, hnosel (fun r => r.totalRows) hs,
      hnosel (fun r => r.page) hs, hnosel (fun r => r.pageSize) hs,
      hnosel (fun r => r.totalPages) hs⟩

/-- Witness for `c4_multi_execution`: three statements where the second
fails, so execution aborts after two sub-results. -/
theorem c4_multi_execution_witness :
    ∃ (rs : List QueryResult) (lastR : QueryResult),
      (execute_multiple_statements dbBadErr ["SELECT 1", "BAD", "SELECT 2"] 5 10).1.results
        = some rs ∧
      (execute_multiple_statements dbBadErr ["SELECT 1", "BAD", "SELECT 2"] 5 10).1.type
        = "multi" ∧
      rs ≠ [] ∧
      rs.length ≤ (["SELECT 1", "BAD", "SELECT 2"] : List String).length ∧
      (execute_multiple_statements dbBadErr ["SELECT 1", "BAD", "SELECT 2"] 5 10).2.length
        = rs.length ∧
      (∀ (j : Nat) (r0 : QueryResult), rs[j]? = some r0 →
        ∃ s, (["SELECT 1", "BAD", "SELECT 2"] : List String)[j]? = some s ∧
          r0 = execute_single_statement dbBadErr s
            (if j = (["SELECT 1", "BAD", "SELECT 2"] : List String).length - 1
             then 5 else 1) 10) ∧
      (∀ (j : Nat) (r0 : QueryResult), rs[j]? = some r0 → j + 1 < rs.length →
        r0.type ≠ "error") ∧
      (rs.length < (["SELECT 1", "BAD", "SELECT 2"] : List String).length →
        ∃ le, rs.getLast? = some le ∧ le.type = "error") ∧
      ((execute_multiple_statements dbBadErr ["SELECT 1", "BAD", "SELECT 2"] 5 10).1.affectedRows
        = if 0 < (rs.map (fun q => q.affectedRows.getD 0)).sum
          then some ((rs.map (fun q => q.affectedRows.getD 0)).sum) else none) ∧
      rs.getLast? = some lastR ∧
      (lastR.type = "select" →
        (execute_multiple_statements dbBadErr ["SELECT 1", "BAD", "SELECT 2"] 5 10).1.columns
          = lastR.columns ∧
        (execute_multiple_statements dbBadErr ["SELECT 1", "BAD", "SELECT 2"] 5 10).1.rows
          = lastR.rows ∧
        (execute_multiple_statements dbBadErr ["SELECT 1", "BAD", "SELECT 2"] 5 10).1.rowCount
          = lastR.rowCount ∧
        (execute_multiple_statements dbBadErr ["SELECT 1", "BAD", "SELECT 2"] 5 10).1.totalRows
          = lastR.totalRows ∧
        (execute_multiple_statements dbBadErr ["SELECT 1", "BAD", "SELECT 2"] 5 10).1.page
          = lastR.page ∧
        (execute_multiple_statements dbBadErr ["SELECT 1", "BAD", "SELECT 2"] 5 10).1.pageSize
          = lastR.pageSize ∧
        (execute_multiple_statements dbBadErr ["SELECT 1", "BAD", "SELECT 2"] 5 10).1.totalPages
          = lastR.totalPages) ∧
      (lastR.type ≠ "select" →
        (execute_multiple_statements dbBadErr ["SELECT 1", "BAD", "SELECT 2"] 5 10).1.columns
          = none ∧
        (execute_multiple_statements dbBadErr ["SELECT 1", "BAD", "SELECT 2"] 5 10).1.rows
          = none ∧
        (execute_multiple_statements dbBadErr ["SELECT 1", "BAD", "SELECT 2"] 5 10).1.rowCount
          = none ∧
        (execute_multiple_statements dbBadErr ["SELECT 1", "BAD", "SELECT 2"] 5 10).1.totalRows
          = none ∧
        (execute_multiple_statements dbBadErr ["SELECT 1", "BAD", "SELECT 2"] 5 10).1.page
          = none ∧
        (execute_multiple_statements dbBadErr ["SELECT 1", "BAD", "SELECT 2"] 5 10).1.pageSize
          = none ∧
        (execute_multiple_statements dbBadErr ["SELECT 1", "BAD", "SELECT 2"] 5 10).1.totalPages
          = none) :=
  c4_multi_execution dbBadErr ["SELECT 1", "BAD", "SELECT 2"] 5 10
    (by decide) (by decide) (by decide)

/-! ### C10 -/

/-- C10: in multi-statement execution every statement except the last is
sent to the driver with page 1 (the last gets the caller's page), and the
top-level message reports the number of statements actually attempted,
even when the sequence aborted on an error. -/
theorem c10_multi_page_forcing_and_message (db : Db) (stmts : List String)
    (page ps : Nat) (_hps : 1 ≤ ps) :
    (∀ (j : Nat) (e : String × Nat),
      (execute_multiple_statements db stmts page ps).2[j]? = some e →
      e.2 = if j = stmts.length - 1 then page else 1) ∧
    (∃ rs, (execute_multiple_statements db stmts page ps).1.results = some rs ∧
      rs.length = (execute_multiple_statements db stmts page ps).2.length) ∧
    (execute_multiple_statements db stmts page ps).1.message
      = some ("Executed "
          ++ toString (execute_multiple_statements db stmts page ps).2.length
          ++ " statements successfully") := by
  refine ⟨?_, ?_, ?_⟩
  · intro j e h
    obtain ⟨s, _, he⟩ := runStatements_trace_get? db page ps stmts.length stmts 0 j e h
    rw [he]
    rw [Nat.zero_add]
  · exact ⟨(runStatements db page ps stmts.length 0 stmts).1, rfl,
      (runStatements_length db page ps stmts.length stmts 0).2.symm⟩
  · show some ("Executed "
        ++ toString (runStatements db page ps stmts.length 0 stmts).1.length
        ++ " statements successfully")
      = some ("Executed "
        ++ toString (runStatements db page ps stmts.length 0 stmts).2.length
        ++ " statements successfully")
    rw [(runStatements_length db page ps stmts.length stmts 0).2]

/-- Witness for `c10_multi_page_forcing_and_message`: three statements,
the second fails, caller page 5. -/
theorem c10_multi_page_forcing_and_message_witness :
    (∀ (j : Nat) (e : String × Nat),
      (execute_multiple_statements dbBadErr ["SELECT 1", "BAD", "SELECT 2"] 5 10).2[j]?
        = some e →
      e.2 = if j = (["SELECT 1", "BAD", "SELECT 2"] : List String).length - 1
        then 5 else 1) ∧
    (∃ rs,
      (execute_multiple_statements dbBadErr ["SELECT 1", "BAD", "SELECT 2"] 5 10).1.results
        = some rs ∧
      rs.length
        = (execute_multiple_statements dbBadErr ["SELECT 1", "BAD", "SELECT 2"] 5 10).2.length) ∧
    (execute_multiple_statements dbBadErr ["SELECT 1", "BAD", "SELECT 2"] 5 10).1.message
      = some ("Executed "
          ++ toString (execute_multiple_statements dbBadErr
              ["SELECT 1", "BAD", "SELECT 2"] 5 10).2.length
          ++ " statements successfully") :=
  c10_multi_page_forcing_and_message dbBadErr ["SELECT 1", "BAD", "SELECT 2"] 5 10
    (by decide)

/-! ### C9 (amended) -/

/-- C9 (amended): whenever the input splits into at least one statement,
`execute_query` returns a structured result (no exception escapes), and a
driver-level error is converted into a kind=error result carrying the
driver's message and no rows.  (On empty or whitespace-only input the
split is empty and the Python raises `IndexError`, see the
counterexample.) -/
theorem c9_error_conversion :
    (∀ (db : Db) (sql : String) (page ps : Nat) (am cd : Bool),
      split_statements sql ≠ [] →
      (execute_query db sql page ps am cd).isSome = true) ∧
    (∀ (db : Db) (sql : String) (page ps : Nat) (msg : String),
      db.run sql = .err msg →
      (execute_single_statement db sql page ps).type = "error" ∧
      (execute_single_statement db sql page ps).message = some msg ∧
      (execute_single_statement db sql page ps).rows = none) := by
  constructor
  · intro db sql page ps am cd h
    unfold execute_query
    by_cases h1 : (collectDanger (split_statements sql)).1 = true ∧ cd = false
    · rw [if_pos h1]
      rfl
    · rw [if_neg h1]
      by_cases h2 : (split_statements sql).length > 1
      · rw [if_pos h2]
        by_cases h3 : am = false
        · rw [if_pos h3]
          rfl
        · rw [if_neg h3]
          rfl
      · rw [if_neg h2]
        cases hs : split_statements sql with
        | nil => exact absurd hs h
        | cons s rest => simp [hs]
  · intro db sql page ps msg h
    have hx : execute_single_statement db sql page ps
        = QueryResult.mk
            { type := "error", message := some msg,
              executionTimeMs := db.elapsed sql,
              warnings := (is_dangerous_query sql).2,
              isDangerous := (is_dangerous_query sql).1 } none := by
      unfold execute_single_statement
      rw [h]
    rw [hx]
    exact ⟨rfl, rfl, rfl⟩

/-- Witness for `c9_error_conversion`: a successful single statement and
an always-failing driver. -/
theorem c9_error_conversion_witness :
    (execute_query dbStub "SELECT 1" 1 10 false false).isSome = true ∧
    ((execute_single_statement dbAlwaysErr "SELECT 1" 1 10).type = "error" ∧
     (execute_single_statement dbAlwaysErr "SELECT 1" 1 10).message = some "boom" ∧
     (execute_single_statement dbAlwaysErr "SELECT 1" 1 10).rows = none) :=
  ⟨c9_error_conversion.1 dbStub "SELECT 1" 1 10 false false (by decide),
   c9_error_conversion.2 dbAlwaysErr "SELECT 1" 1 10 "boom" rfl⟩

/-! ### Splitter refinement machinery (C2) -/

theorem head?_dropWhile (p : Char → Bool) (l : List Char) :
    ∀ c, (l.dropWhile p).head? = some c → p c = false := by
  induction l with
  | nil => intro c h; simp at h
  | cons a rest ih =>
    intro c h
    rw [List.dropWhile_cons] at h
    by_cases hpa : p a
    · rw [if_pos hpa] at h
      exact ih c h
    · rw [if_neg hpa] at h
      simp at h
      rw [← h]
      exact Bool.of_not_eq_true hpa

theorem dropWhile_self_of_head (p : Char → Bool) (l : List Char)
    (h : ∀ c, l.head? = some c → p c = false) : l.dropWhile p = l := by
  cases l with
  | nil => rfl
  | cons a rest =>
    rw [List.dropWhile_cons, if_neg ?_]
    rw [h a rfl]
    simp

theorem getLast?_dropWhile (p : Char → Bool) (l : List Char)
    (hl : ∀ c, l.getLast? = some c → p c = false) :
    ∀ c, (l.dropWhile p).getLast? = some c → p c = false := by
  induction l with
  | nil => intro c h; simp at h
  | cons a rest ih =>
    intro c h
    rw [List.dropWhile_cons] at h
    by_cases hpa : p a
    · rw [if_pos hpa] at h
      refine ih ?_ c h
      intro d hd
      cases rest with
      | nil => simp at hd
      | cons b bs => exact hl d (by rw [List.getLast?_cons_cons]; exact hd)
    · rw [if_neg hpa] at h
      exact hl c h

/-- Stripping a character list is idempotent: the result has no leading
or trailing whitespace, so stripping it again changes nothing. -/
theorem stripList_idem (l : List Char) : stripList (stripList l) = stripList l := by
  unfold stripList
  have hb := head?_dropWhile pyIsSpace (l.dropWhile pyIsSpace).reverse
  have hlast : ∀ c,
      ((l.dropWhile pyIsSpace).reverse.dropWhile pyIsSpace).getLast? = some c →
      pyIsSpace c = false := by
    refine getLast?_dropWhile pyIsSpace _ ?_
    intro c hc
    rw [List.getLast?_reverse] at hc
    exact head?_dropWhile pyIsSpace l c hc
  have h1 : (((l.dropWhile pyIsSpace).reverse.dropWhile pyIsSpace).reverse).dropWhile
      pyIsSpace = ((l.dropWhile pyIsSpace).reverse.dropWhile pyIsSpace).reverse := by
    refine dropWhile_self_of_head pyIsSpace _ ?_
    intro c hc
    rw [List.head?_reverse] at hc
    exact hlast c hc
  rw [h1, List.reverse_reverse,
    dropWhile_self_of_head pyIsSpace _ hb]

/-- Python stripping is idempotent. -/
theorem pyStrip_idem (s : String) : pyStrip (pyStrip s) = pyStrip s :=
  congrArg String.mk (stripList_idem s.data)

theorem specSegments_ne_nil (l : List Char) (q : Option Char) : specSegments l q ≠ [] := by
  cases l with
  | nil => simp [specSegments]
  | cons c rest =>
    by_cases h : q = none ∧ c = ';'
    · simp only [specSegments, if_pos h]
      simp
    · simp only [specSegments, if_neg h]
      simp

/-- Prepend `cur` onto the first spec segment. -/
def consHead (cur : List Char) : List (List Char) → List (List Char)
  | [] => [cur]
  | seg :: rest => (cur ++ seg) :: rest

theorem consHead_nil_left (segs : List (List Char)) (h : segs ≠ []) :
    consHead [] segs = segs := by
  cases segs with
  | nil => exact absurd rfl h
  | cons s0 srest => simp [consHead]

theorem consHead_shift (cur : List Char) (c : Char) (segs : List (List Char))
    (h : segs ≠ []) :
    consHead cur ((c :: segs.headD []) :: segs.tail) = consHead (cur ++ [c]) segs := by
  cases segs with
  | nil => exact absurd rfl h
  | cons s0 srest =>
    simp only [consHead, List.headD_cons, List.tail_cons]
    rw [List.append_cons]

/-- Trim each segment and drop the empty results. -/
def stripSegs (segs : List (List Char)) : List String :=
  (segs.map (fun l => pyStrip (String.mk l))).filter (fun s => s ≠ "")

theorem stripSegs_nil : stripSegs [] = [] := rfl

theorem stripSegs_cons (s0 : List Char) (srest : List (List Char)) :
    stripSegs (s0 :: srest)
      = (if pyStrip (String.mk s0) = "" then [] else [pyStrip (String.mk s0)])
        ++ stripSegs srest := by
  by_cases h : pyStrip (String.mk s0) = ""
  · simp [stripSegs, h]
  · simp [stripSegs, h]

theorem specSplit_eq_stripSegs (sql : String) :
    specSplit sql = stripSegs (specSegments sql.data none) := rfl

/-- Kept elements of `stripSegs` survive the outer strip-filter of
`split_statements` (stripping is idempotent). -/
theorem stripSegs_filter (segs : List (List Char)) :
    (stripSegs segs).filter (fun st => pyStrip st ≠ "") = stripSegs segs := by
  rw [List.filter_eq_self]
  intro s hs
  simp only [stripSegs, List.mem_filter, List.mem_map] at hs
  obtain ⟨⟨t, _, hts⟩, hne⟩ := hs
  simp only [decide_eq_true_eq] at hne ⊢
  rw [← hts, pyStrip_idem]
  rw [← hts] at hne
  exact hne

/-- The tail of `split_statements`: append the pending buffer if its
strip is non-empty. -/
def finishSplit (sc : List String × List Char) : List String :=
  if pyStrip (String.mk sc.2) = "" then sc.1 else sc.1 ++ [pyStrip (String.mk sc.2)]

theorem split_statements_eq_finish (sql : String) :
    split_statements sql
      = (finishSplit (splitLoop sql.data false none [] [])).filter
          (fun st => pyStrip st ≠ "") := rfl

/-! ### Step equations for `splitLoop` and `specSegments` -/

theorem splitLoop_cons_open (c : Char) (rest : List Char) (sc : Option Char)
    (cur : List Char) (stmts : List String)
    (h1 : c = dquoteChar ∨ c = squoteChar ∨ c = btickChar) :
    splitLoop (c :: rest) false sc cur stmts
      = splitLoop rest true (some c) (cur ++ [c]) stmts := by
  simp only [splitLoop]
  rw [if_pos ⟨h1, trivial⟩]

theorem splitLoop_cons_close (c : Char) (rest : List Char) (sc : Option Char)
    (cur : List Char) (stmts : List String) (h : sc = some c) :
    splitLoop (c :: rest) true sc cur stmts
      = splitLoop rest false none (cur ++ [c]) stmts := by
  simp only [splitLoop]
  rw [if_neg (by simp), if_pos ⟨h, trivial⟩]

theorem splitLoop_cons_semi (rest : List Char) (sc : Option Char)
    (cur : List Char) (stmts : List String) :
    splitLoop (';' :: rest) false sc cur stmts
      = splitLoop rest false sc []
          (if pyStrip (String.mk cur) = "" then stmts
           else stmts ++ [pyStrip (String.mk cur)]) := by
  simp only [splitLoop]
  rw [if_neg (by rintro ⟨hq, _⟩; revert hq; decide), if_neg (by simp),
    if_pos (by simp)]

theorem splitLoop_cons_other_out (c : Char) (rest : List Char) (sc : Option Char)
    (cur : List Char) (stmts : List String)
    (hq : ¬(c = dquoteChar ∨ c = squoteChar ∨ c = btickChar)) (hsemi : c ≠ ';') :
    splitLoop (c :: rest) false sc cur stmts
      = splitLoop rest false sc (cur ++ [c]) stmts := by
  simp only [splitLoop]
  rw [if_neg (fun hx => hq hx.1), if_neg (by simp), if_neg (fun hx => hsemi hx.1)]

theorem splitLoop_cons_other_in (c : Char) (rest : List Char) (sc : Option Char)
    (cur : List Char) (stmts : List String) (hne : sc ≠ some c) :
    splitLoop (c :: rest) true sc cur stmts
      = splitLoop rest true sc (cur ++ [c]) stmts := by
  simp only [splitLoop]
  rw [if_neg (by simp), if_neg (fun hx => hne hx.1), if_neg (by simp)]

theorem specSegments_semi (rest : List Char) :
    specSegments (';' :: rest) none = [] :: specSegments rest none := by
  simp [specSegments]

theorem specSegments_step (c : Char) (rest : List Char) (q : Option Char)
    (h : ¬(q = none ∧ c = ';')) :
    specSegments (c :: rest) q
      = (c :: (specSegments rest (specQuoteStep q c)).headD [])
        :: (specSegments rest (specQuoteStep q c)).tail := by
  simp only [specSegments]
  rw [if_neg h]

theorem specQuoteStep_open (c : Char)
    (h : c = dquoteChar ∨ c = squoteChar ∨ c = btickChar) :
    specQuoteStep none c = some c := by
  simp [specQuoteStep, h]

theorem specQuoteStep_skip (c : Char)
    (h : ¬(c = dquoteChar ∨ c = squoteChar ∨ c = btickChar)) :
    specQuoteStep none c = none := by
  simp only [specQuoteStep]
  rw [if_neg h]

theorem specQuoteStep_close (qc : Char) : specQuoteStep (some qc) qc = none := by
  simp [specQuoteStep]

theorem specQuoteStep_stay (qc c : Char) (h : c ≠ qc) :
    specQuoteStep (some qc) c = some qc := by
  simp only [specQuoteStep]
  rw [if_neg h]

/-! ### The splitter refinement -/

/-- The character loop of `split_statements`, run to completion and
finished, produces exactly the already-emitted statements followed by the
spec-side segments (current buffer prepended to the first), each trimmed
with the empties dropped. -/
theorem splitLoop_spec (l : List Char) :
    ∀ (q : Option Char) (cur : List Char) (stmts : List String),
      finishSplit (splitLoop l q.isSome q cur stmts)
        = stmts ++ stripSegs (consHead cur (specSegments l q)) := by
  induction l with
  | nil =>
    intro q cur stmts
    show finishSplit (stmts, cur) = stmts ++ stripSegs (consHead cur [[]])
    simp only [consHead, List.append_nil]
    rw [stripSegs_cons, stripSegs_nil]
    by_cases h : pyStrip (String.mk cur) = ""
    · simp [finishSplit, h]
    · simp [finishSplit, h]
  | cons c rest ih =>
    intro q cur stmts
    cases q with
    | none =>
      by_cases hq : c = dquoteChar ∨ c = squoteChar ∨ c = btickChar
      · -- a quote opens a span
        show finishSplit (splitLoop (c :: rest) false none cur stmts) = _
        rw [splitLoop_cons_open c rest none cur stmts hq]
        have hIH := ih (some c) (cur ++ [c]) stmts
        rw [show (some c).isSome = true from rfl] at hIH
        rw [hIH]
        rw [specSegments_step c rest none
          (by rintro ⟨_, hc⟩; rw [hc] at hq; revert hq; decide),
          specQuoteStep_open c hq,
          consHead_shift cur c _ (specSegments_ne_nil rest (some c))]
      · by_cases hsemi : c = ';'
        · -- an unquoted semicolon ends the statement
          subst hsemi
          show finishSplit (splitLoop (';' :: rest) false none cur stmts) = _
          rw [splitLoop_cons_semi rest none cur stmts]
          have hIH := ih none []
            (if pyStrip (String.mk cur) = "" then stmts
             else stmts ++ [pyStrip (String.mk cur)])
          rw [show (none : Option Char).isSome = false from rfl] at hIH
          rw [hIH]
          rw [specSegments_semi,
            consHead_nil_left _ (specSegments_ne_nil rest none)]
          show _ = stmts ++ stripSegs ((cur ++ []) :: specSegments rest none)
          rw [List.append_nil, stripSegs_cons]
          by_cases h : pyStrip (String.mk cur) = ""
          · simp [h]
          · simp [h]
        · -- an ordinary character outside quotes
          show finishSplit (splitLoop (c :: rest) false none cur stmts) = _
          rw [splitLoop_cons_other_out c rest none cur stmts hq hsemi]
          have hIH := ih none (cur ++ [c]) stmts
          rw [show (none : Option Char).isSome = false from rfl] at hIH
          rw [hIH]
          rw [specSegments_step c rest none (by rintro ⟨_, hc⟩; exact hsemi hc),
            specQuoteStep_skip c hq,
            consHead_shift cur c _ (specSegments_ne_nil rest none)]
    | some qc =>
      by_cases hc : qc = c
      · -- the matching quote closes the span
        subst hc
        show finishSplit (splitLoop (qc :: rest) true (some qc) cur stmts) = _
        rw [splitLoop_cons_close qc rest (some qc) cur stmts rfl]
        have hIH := ih none (cur ++ [qc]) stmts
        rw [show (none : Option Char).isSome = false from rfl] at hIH
        rw [hIH]
        rw [specSegments_step qc rest (some qc) (by rintro ⟨hn, _⟩; cases hn),
          specQuoteStep_close qc,
          consHead_shift cur qc _ (specSegments_ne_nil rest none)]
      · -- any other character inside a quoted span
        show finishSplit (splitLoop (c :: rest) true (some qc) cur stmts) = _
        rw [splitLoop_cons_other_in c rest (some qc) cur stmts
          (by intro hx; exact hc (Option.some.inj hx))]
        have hIH := ih (some qc) (cur ++ [c]) stmts
        rw [show (some qc).isSome = true from rfl] at hIH
        rw [hIH]
        rw [specSegments_step c rest (some qc) (by rintro ⟨hn, _⟩; cases hn),
          specQuoteStep_stay qc c (fun hx => hc hx.symm),
          consHead_shift cur c _ (specSegments_ne_nil rest (some qc))]

/-- `split_statements` computes exactly the spec-side splitter. -/
theorem split_statements_eq_specSplit (sql : String) :
    split_statements sql = specSplit sql := by
  rw [split_statements_eq_finish sql]
  have h := splitLoop_spec sql.data none [] []
  rw [show (none : Option Char).isSome = false from rfl] at h
  rw [h]
  simp only [List.nil_append]
  rw [consHead_nil_left _ (specSegments_ne_nil sql.data none)]
  rw [stripSegs_filter, specSplit_eq_stripSegs]

/-! ### C2 -/

/-- `SELECT ';' AS a; SELECT 2;` (single quotes built explicitly). -/
def exQuery : String :=
  String.mk ("SELECT ".data ++ [squoteChar, ';', squoteChar] ++ " AS a; SELECT 2;".data)

/-- `SELECT ';' AS a` — the first expected statement. -/
def exStmt1 : String :=
  String.mk ("SELECT ".data ++ [squoteChar, ';', squoteChar] ++ " AS a".data)

/-- C2: `split_statements` returns exactly the trimmed, non-empty pieces
of the input cut at semicolons lying outside single-, double- or
backtick-quoted spans (quoted semicolons kept literally, trailing
unterminated statement included) — stated as equality with the spec-side
splitter `specSplit` for every input — and the documented example yields
exactly two statements with the quoted semicolon intact. -/
theorem c2_split_statements_spec :
    (∀ sql : String, split_statements sql = specSplit sql) ∧
    split_statements exQuery = [exStmt1, "SELECT 2"] :=
  ⟨split_statements_eq_specSplit, by decide⟩

end PrismDb
